import Mathlib

/-!
Verification of `src/zach/trainlib/train.py`: a training script for a
multi-label chest X-ray classifier.  The Python functions are shallowly
embedded as executable Lean definitions; theorems below settle the frozen
claims about the script.

Conventions of the embedding:
* paths follow POSIX `os.path` semantics (`posixpath.join`);
* dataframes are modelled by the columns that the script itself touches
  (the `path` column and the row count); label values flow untouched
  through the framework generator, which is modelled separately;
* fallible Python code (file reads, JSON/CSV parsing, name resolution)
  is modelled with `Except PyError`.
-/

/-- `p.startswith('/')` — whether a POSIX path string is absolute. -/
def strStartsSlash (p : String) : Bool :=
  match p.data with
  | c :: _ => c = '/'
  | [] => false

/-- `os.path.isabs` on POSIX: the path begins with a slash. -/
def isAbsolute (p : String) : Bool := strStartsSlash p

/-- `p.endswith('/')`. -/
def strEndsSlash (p : String) : Bool :=
  match p.data.getLast? with
  | some c => c = '/'
  | none => false

/-- POSIX `os.path.join(a, b)` for two arguments, following `posixpath.join`:
if `b` starts with the separator the accumulated path is discarded;
otherwise the separator is inserted unless `a` is empty or already ends
with it. -/
def os_path_join (a b : String) : String :=
  if strStartsSlash b then b
  else if a = "" || strEndsSlash a then a ++ b
  else a ++ "/" ++ b

/-- `modify_paths` from `train.py`: `return os.path.join(base_path, relative_path)`. -/
def modify_paths (base_path relative_path : String) : String :=
  os_path_join base_path relative_path

/-- A string `p` is rooted at `base` when `base` is an initial segment of `p`. -/
def rootedAt (base p : String) : Prop := ∃ t, p = base ++ t

theorem string_data_append (a b : String) : (a ++ b).data = a.data ++ b.data := by
  cases a; cases b; rfl

theorem string_append_assoc (a b c : String) : (a ++ b) ++ c = a ++ (b ++ c) := by
  apply String.ext
  simp [string_data_append, List.append_assoc]

theorem strStartsSlash_append (a b : String) (h : a ≠ "") :
    strStartsSlash (a ++ b) = strStartsSlash a := by
  have hd : a.data ≠ [] := by
    intro hnil
    exact h (String.ext hnil)
  unfold strStartsSlash
  rw [string_data_append]
  cases hh : a.data with
  | nil => exact absurd hh hd
  | cons c cs => simp

/-- With an absolute base and a non-absolute relative part, `modify_paths`
returns an absolute path that has the base as an initial segment. -/
theorem modify_paths_abs_of_abs_base (base rel : String)
    (hbase : isAbsolute base = true) (hrel : isAbsolute rel = false) :
    isAbsolute (modify_paths base rel) = true ∧ rootedAt base (modify_paths base rel) := by
  have hbne : base ≠ "" := by
    intro h
    rw [h] at hbase
    simp [isAbsolute, strStartsSlash] at hbase
  unfold modify_paths os_path_join
  rw [if_neg (by simp [isAbsolute] at hrel; simp [hrel])]
  by_cases hcase : base = "" ∨ strEndsSlash base = true
  · rw [if_pos (by simpa using hcase)]
    refine ⟨?_, rel, rfl⟩
    unfold isAbsolute
    rw [strStartsSlash_append base rel hbne]
    exact hbase
  · rw [if_neg (by simpa using hcase)]
    constructor
    · unfold isAbsolute
      rw [string_append_assoc, strStartsSlash_append base ("/" ++ rel) hbne]
      exact hbase
    · exact ⟨"/" ++ rel, string_append_assoc base "/" rel⟩

/-- The flat key-value configuration record read from `config.json`
(keys read by `train.py`). -/
structure Config where
  META_BASE_PATH : String
  IMAGE_BASE_PATH : String
  IMG_HEIGHT : Nat
  IMG_WIDTH : Nat
  BATCH_SIZE : Nat
  TEST_BATCH : Nat
  NUM_CLASSES : Nat
  INITIAL_LR : Rat
  MAX_EPOCHS : Nat
  WEIGHTS_DIR : String
deriving DecidableEq, Repr

/-- A manifest dataframe, modelled by the columns that the script itself
touches: the `path` column (one entry per row).  `len(df)` is the length
of this list. -/
structure DataFrame where
  path : List String
deriving DecidableEq, Repr

/-- Contents of a file in the modelled filesystem, at the level of
abstraction the script observes: a parseable JSON config, a parseable
CSV manifest, or something neither parser accepts. -/
inductive FileData where
  | jsonData (c : Config)
  | csvData (df : DataFrame)
  | malformed
deriving DecidableEq, Repr

/-- The uncaught Python exceptions the script can raise in the embedded
fragment. -/
inductive PyError where
  | fileNotFound (p : String)
  | jsonDecodeError (p : String)
  | csvParserError (p : String)
  | nameError (n : String)
  | zeroDivisionError
deriving DecidableEq, Repr

/-- The filesystem: an association list of file contents, plus the set of
existing directories. -/
structure FS where
  files : List (String × FileData)
  dirs : List String
deriving DecidableEq, Repr

def fsLookup : List (String × FileData) → String → Option FileData
  | [], _ => none
  | (q, d) :: rest, p => if q = p then some d else fsLookup rest p

/-- `json.load(open(p))`: `FileNotFoundError` when absent,
`json.JSONDecodeError` when the content is not valid JSON. -/
def json_load (fs : FS) (p : String) : Except PyError Config :=
  match fsLookup fs.files p with
  | none => .error (.fileNotFound p)
  | some (.jsonData c) => .ok c
  | some _ => .error (.jsonDecodeError p)

/-- `pd.read_csv(p)`: `FileNotFoundError` when absent, a parser error when
the content is not a well-formed CSV manifest. -/
def read_csv (fs : FS) (p : String) : Except PyError DataFrame :=
  match fsLookup fs.files p with
  | none => .error (.fileNotFound p)
  | some (.csvData df) => .ok df
  | some _ => .error (.csvParserError p)

/-- `load_config` from `train.py`: opens the config file and parses it as
JSON; any failure propagates. -/
def load_config (fs : FS) (config_path : String) : Except PyError Config :=
  json_load fs config_path

/-- `load_datasets` from `train.py`: reads `train.csv`, `valid.csv` and
`test.csv` under `META_BASE_PATH` and rewrites each row of the `path`
column with `modify_paths(IMAGE_BASE_PATH, ·)`; any failure propagates. -/
def load_datasets (fs : FS) (config : Config) : Except PyError (DataFrame × DataFrame × DataFrame) := do
  let csv_base := config.META_BASE_PATH
  let image_base := config.IMAGE_BASE_PATH
  let train ← read_csv fs (os_path_join csv_base "train.csv")
  let valid ← read_csv fs (os_path_join csv_base "valid.csv")
  let test ← read_csv fs (os_path_join csv_base "test.csv")
  return (⟨train.path.map (fun x => modify_paths image_base x)⟩,
          ⟨valid.path.map (fun x => modify_paths image_base x)⟩,
          ⟨test.path.map (fun x => modify_paths image_base x)⟩)

/-- A numeric batch (image data or label data), as a row-major matrix. -/
abbrev Mat := List (List Rat)

/-- `batch_y[:, i]` in numpy: the `i`-th column of a wide label array,
as a one-dimensional array with one entry per row.  (Out-of-range
indices are totalised with `0`; claims only use it under the hypothesis
that every row has at least `i + 1` entries.) -/
def numpy_column (y : Mat) (i : Nat) : List Rat :=
  y.map (fun row => row.getD i 0)

/-- `generator_wrapper` from `train.py`, on a (prefix of a) stream of
`(batch_x, batch_y)` pairs: each label batch is replaced by the list
`[batch_y[:, i] for i in range(num_classes)]`. -/
def generator_wrapper (generator : List (Mat × Mat)) (num_classes : Nat) :
    List (Mat × List (List Rat)) :=
  generator.map (fun b => (b.1, (List.range num_classes).map (fun i => numpy_column b.2 i)))

/-- The keyword arguments of `tf.keras.preprocessing.image.ImageDataGenerator`
used by the script, with the framework defaults (`rotation_range=0`,
`zoom_range=0.0`, `horizontal_flip=False`, `rescale=None`,
`fill_mode` defaulting to `"nearest"`). -/
structure ImageDataGenerator where
  rotation_range : Nat := 0
  fill_mode : String := "nearest"
  zoom_range : Rat := 0
  horizontal_flip : Bool := false
  rescale : Option Rat := none
deriving DecidableEq, Repr

/-- The arguments of one `flow_from_dataframe` call: the augmentation
configuration together with the dataframe and batch options. -/
structure DataframeIterator where
  gen : ImageDataGenerator
  df : DataFrame
  x_col : String
  y_col : List String
  class_mode : String
  target_size : Nat × Nat
  shuffle : Bool
  seed : Option Nat := none
  batch_size : Nat
deriving DecidableEq, Repr

/-- The per-split return value of `get_image_generators`: the batch iterator
wrapped by `generator_wrapper(·, num_classes)`. -/
structure WrappedGen where
  batches : DataframeIterator
  num_classes : Nat
deriving DecidableEq, Repr

/-- The Python method `str.split` with a comma separator: cut the character list at every comma,
keeping empty pieces. -/
def splitCommaAux : List Char → List Char → List String
  | [], acc => [String.mk acc.reverse]
  | c :: rest, acc =>
      if c = ',' then String.mk acc.reverse :: splitCommaAux rest []
      else splitCommaAux rest (c :: acc)

/-- The Python comma split of `s`, over the characters of `s`. -/
def pySplitComma (s : String) : List String := splitCommaAux s.data []

/-- The `labels` list of `get_image_generators`, exactly as built in the
source: a comma-separated literal split on the comma. -/
def labels : List String :=
  pySplitComma "Atelectasis,Cardiomegaly,Consolidation,Edema,Enlarged Cardiomediastinum,Fracture,Lung Lesion,Lung Opacity,No Finding,Pleural Effusion,Pleural Other,Pneumonia,Pneumothorax,Support Devices"

/-- `get_image_generators` from `train.py`, returning the three wrapped
split generators (train, valid, test). -/
def get_image_generators (train valid test : DataFrame) (config : Config) :
    WrappedGen × WrappedGen × WrappedGen :=
  let HEIGHT := config.IMG_HEIGHT
  let WIDTH := config.IMG_WIDTH
  let BATCH_SIZE := config.BATCH_SIZE
  let TEST_BATCH := config.TEST_BATCH
  let num_classes := config.NUM_CLASSES
  let train_gen : ImageDataGenerator :=
    { rotation_range := 15, fill_mode := "constant", zoom_range := 1/10,
      horizontal_flip := true, rescale := some (1/255) }
  let validate_gen : ImageDataGenerator := { rescale := some (1/255) }
  let train_batches : DataframeIterator :=
    { gen := train_gen, df := train, x_col := "path", y_col := labels,
      class_mode := "raw", target_size := (HEIGHT, WIDTH), shuffle := true,
      seed := some 1, batch_size := BATCH_SIZE }
  let validate_batches : DataframeIterator :=
    { gen := validate_gen, df := valid, x_col := "path", y_col := labels,
      class_mode := "raw", target_size := (HEIGHT, WIDTH), shuffle := true,
      batch_size := BATCH_SIZE }
  let test_batches : DataframeIterator :=
    { gen := validate_gen, df := test, x_col := "path", y_col := labels,
      class_mode := "raw", target_size := (HEIGHT, WIDTH), shuffle := false,
      batch_size := TEST_BATCH }
  (⟨train_batches, num_classes⟩, ⟨validate_batches, num_classes⟩, ⟨test_batches, num_classes⟩)

/-- The randomness consumed by one call of the framework per-image
random-parameter draw (the values `np.random` would return). -/
structure Randomness where
  rot : Int
  zoom : Rat
  flip : Bool
deriving DecidableEq, Repr

/-- The geometric transform parameters the framework draws for one image. -/
structure TransformParams where
  theta : Int
  zx : Rat
  flip : Bool
deriving DecidableEq, Repr

/-- The framework method `get_random_transform`: the rotation angle is drawn
only when `rotation_range` is nonzero, the zoom factor only when
`zoom_range` is nonzero, and a flip only when `horizontal_flip` is set;
otherwise the identity parameters `theta = 0`, `zx = 1`, `flip = false`
are used. -/
def get_random_transform (g : ImageDataGenerator) (r : Randomness) : TransformParams :=
  { theta := if g.rotation_range = 0 then 0 else r.rot,
    zx := if g.zoom_range = 0 then 1 else r.zoom,
    flip := g.horizontal_flip && r.flip }

/-- The framework method `standardize`: pixelwise multiplication by `rescale`
when it is set.  This step consumes no randomness. -/
def standardize (g : ImageDataGenerator) (img : Mat) : Mat :=
  match g.rescale with
  | some s => img.map (fun row => row.map (fun x => s * x))
  | none => img

/-- The order in which a `flow_from_dataframe` iterator visits the manifest
rows during one pass: a permutation of the indices when `shuffle` is on,
the row order of the manifest when it is off. -/
def iterationOrder (it : DataframeIterator) (perm : List Nat) : List Nat :=
  if it.shuffle then perm else List.range it.df.path.length

/-- A symbolic tensor of the assembled computation graph. -/
inductive Tensor where
  | backboneIn
  | backboneOut
  | dense (units : Nat) (activation : String) (input : Tensor)
  | dropout (rate : Rat) (input : Tensor)
deriving DecidableEq, Repr

/-- A keras functional `Model`: its input tensor and output tensors. -/
structure KModel where
  inputs : Tensor
  outputs : List Tensor
deriving DecidableEq, Repr

/-- The shared trunk built in `get_model`: `Dense(512, relu)` then
`Dropout(0.3)` on top of the DenseNet121 backbone output. -/
def modelTrunk : Tensor :=
  Tensor.dropout (3/10) (Tensor.dense 512 "relu" Tensor.backboneOut)

/-- `get_model` from `train.py`: a DenseNet121 backbone (top removed), the
shared trunk, and one `Dense(1, sigmoid)` head per class appended in a
loop. -/
def get_model (num_classes : Nat) : KModel :=
  let x := Tensor.dense 512 "relu" Tensor.backboneOut
  let x := Tensor.dropout (3/10) x
  let output := (List.range num_classes).foldl
    (fun acc _ => acc ++ [Tensor.dense 1 "sigmoid" x]) []
  { inputs := Tensor.backboneIn, outputs := output }

/-- The module-level globals of `train.py` that the body of `train_model` reads
by name (`train` and `valid` are bound only inside the `__main__` block;
`train_model` never assigns them, so the names resolve against the module
globals, or raise `NameError` when unbound). -/
structure Globals where
  train : Option DataFrame
  valid : Option DataFrame
deriving DecidableEq, Repr

/-- `math.ceil(a / b)` for natural `a` and positive natural `b`. -/
def mathCeilDiv (a b : Nat) : Nat := (a + b - 1) / b

/-- The data `train_model` has fixed by the time `model.fit` starts. -/
structure TrainRun where
  steps_per_epoch : Nat
  validation_steps : Nat
  epochs : Nat
  losses : List String
  weights_path : String
deriving DecidableEq, Repr

/-- `train_model` from `train.py`.  `model`, `train_ds` and `valid_ds` are
the actual parameters of the source function (they are forwarded to
framework calls only, hence their types are opaque here).
`steps_per_epoch` and `validation_steps` are computed from
`len(train)`/`len(valid)` where `train` and `valid` resolve to module
globals (raising `NameError` when unbound, `ZeroDivisionError` when
`BATCH_SIZE` is zero); then the weights directory is created when absent.
The returned `FS` is the filesystem state at the moment `model.fit`
begins. -/
def train_model {α β γ : Type} (g : Globals) (model : α) (train_ds : β)
    (valid_ds : γ) (config : Config) (fs : FS) : Except PyError (TrainRun × FS) :=
  let BATCH_SIZE := config.BATCH_SIZE
  let epochs := config.MAX_EPOCHS
  let weights_dir := config.WEIGHTS_DIR
  match g.train with
  | none => Except.error (PyError.nameError "train")
  | some train =>
    if BATCH_SIZE = 0 then Except.error PyError.zeroDivisionError
    else
      let train_epoch := mathCeilDiv train.path.length BATCH_SIZE
      match g.valid with
      | none => Except.error (PyError.nameError "valid")
      | some valid =>
        let val_epoch := mathCeilDiv valid.path.length BATCH_SIZE
        let losses := List.replicate config.NUM_CLASSES "binary_crossentropy"
        let fs2 : FS := if weights_dir ∈ fs.dirs then fs
                        else { fs with dirs := weights_dir :: fs.dirs }
        let weights_path := os_path_join weights_dir "model.hdf5"
        Except.ok ({ steps_per_epoch := train_epoch, validation_steps := val_epoch,
                     epochs := epochs, losses := losses,
                     weights_path := weights_path },
                   fs2)

/-- The `__main__` block of `train.py`, up to the start of training:
config load, dataset load, generator construction, model assembly, then
`train_model` called with the module globals `train` and `valid` bound to
the loaded dataframes.  Returns the training run data, the filesystem at
`fit` time, and the wrapped test generator that `model.predict` then
consumes. -/
def script_main (fs : FS) : Except PyError (TrainRun × FS × WrappedGen) := do
  let config ← load_config fs "config.json"
  let (train, valid, test) ← load_datasets fs config
  let (train_batches, valid_batches, test_batches) :=
    get_image_generators train valid test config
  let num_classes := config.NUM_CLASSES
  let model := get_model num_classes
  let (run, fs2) ← train_model ⟨some train, some valid⟩ model train_batches
    valid_batches config fs
  return (run, fs2, test_batches)

/-- C10 counterexample: with the relative base `"data"` and the absolute
row path `"/abs/img.jpg"`, `modify_paths` returns an absolute path, so
"for every relative `base_path` the result is not an absolute path" fails
as stated. -/
theorem modify_paths_relative_base_absolute_result :
    modify_paths "data" "/abs/img.jpg" = "/abs/img.jpg" ∧
    isAbsolute "data" = false ∧
    isAbsolute (modify_paths "data" "/abs/img.jpg") = true := by
  refine ⟨rfl, by decide, by decide⟩

/-- C10 (amended): `modify_paths` is `os.path.join` of its two arguments;
for every `relative_path` that is already absolute the base is ignored and
`relative_path` is returned unchanged; and when `base_path` and
`relative_path` are BOTH relative, the result is not an absolute path. -/
theorem modify_paths_join_behavior (b r : String) :
    modify_paths b r = os_path_join b r ∧
    (isAbsolute r = true → modify_paths b r = r) ∧
    (isAbsolute b = false → isAbsolute r = false →
      isAbsolute (modify_paths b r) = false) := by
  refine ⟨rfl, ?_, ?_⟩
  · intro hr
    unfold modify_paths os_path_join
    rw [if_pos (by simpa [isAbsolute] using hr)]
  · intro hb hr
    have hr' : strStartsSlash r = false := by simpa [isAbsolute] using hr
    have hb' : strStartsSlash b = false := by simpa [isAbsolute] using hb
    unfold modify_paths os_path_join
    rw [if_neg (by simp [hr'])]
    by_cases hb0 : b = ""
    · subst hb0
      rw [if_pos (by simp)]
      have he : "" ++ r = r := String.ext (by rw [string_data_append]; rfl)
      rw [he]
      exact hr
    · by_cases hbe : strEndsSlash b = true
      · rw [if_pos (by simp [hbe])]
        unfold isAbsolute
        rw [strStartsSlash_append b r hb0]
        exact hb'
      · rw [if_neg (by simp [hb0, hbe])]
        unfold isAbsolute
        rw [string_append_assoc, strStartsSlash_append b ("/" ++ r) hb0]
        exact hb'

/-- C10 witness: the amended theorem applied at concrete paths. -/
theorem modify_paths_join_behavior_witness :
    modify_paths "data" "img.jpg" = os_path_join "data" "img.jpg" ∧
    modify_paths "base" "/x" = "/x" ∧
    isAbsolute (modify_paths "data" "img.jpg") = false :=
  ⟨(modify_paths_join_behavior "data" "img.jpg").1,
   (modify_paths_join_behavior "base" "/x").2.1 (by decide),
   (modify_paths_join_behavior "data" "img.jpg").2.2 (by decide) (by decide)⟩

/-- A filesystem and config with a RELATIVE `IMAGE_BASE_PATH`, on which
the rewritten paths of the loaded manifests are not absolute. -/
def relBaseFS : FS :=
  ⟨[("meta/train.csv", .csvData ⟨["a.jpg"]⟩),
    ("meta/valid.csv", .csvData ⟨["b.jpg"]⟩),
    ("meta/test.csv", .csvData ⟨["c.jpg"]⟩)], []⟩

def relBaseConfig : Config :=
  { META_BASE_PATH := "meta", IMAGE_BASE_PATH := "images",
    IMG_HEIGHT := 224, IMG_WIDTH := 224, BATCH_SIZE := 16, TEST_BATCH := 16,
    NUM_CLASSES := 14, INITIAL_LR := 1/1000, MAX_EPOCHS := 10,
    WEIGHTS_DIR := "weights" }

/-- C1 counterexample: when the configured `IMAGE_BASE_PATH` is the
relative directory `"images"`, `load_datasets` succeeds but the rewritten
`path` value `"images/a.jpg"` is not an absolute path, so the claim fails
as stated. -/
theorem load_datasets_relative_base_not_absolute :
    load_datasets relBaseFS relBaseConfig =
      .ok (⟨["images/a.jpg"]⟩, ⟨["images/b.jpg"]⟩, ⟨["images/c.jpg"]⟩) ∧
    isAbsolute "images/a.jpg" = false := by
  refine ⟨rfl, by decide⟩

/-- C1 (amended): when the configured `IMAGE_BASE_PATH` is absolute and
every raw manifest row path is relative, every `path` value produced by
`load_datasets` is an absolute path rooted at the configured base. -/
theorem load_datasets_paths_absolute_rooted (fs : FS) (cfg : Config)
    (tr0 va0 te0 : DataFrame)
    (htr : read_csv fs (os_path_join cfg.META_BASE_PATH "train.csv") = .ok tr0)
    (hva : read_csv fs (os_path_join cfg.META_BASE_PATH "valid.csv") = .ok va0)
    (hte : read_csv fs (os_path_join cfg.META_BASE_PATH "test.csv") = .ok te0)
    (hbase : isAbsolute cfg.IMAGE_BASE_PATH = true)
    (hrel : ∀ p ∈ tr0.path ++ va0.path ++ te0.path, isAbsolute p = false) :
    ∃ tr va te, load_datasets fs cfg = .ok (tr, va, te) ∧
      ∀ p ∈ tr.path ++ va.path ++ te.path,
        isAbsolute p = true ∧ rootedAt cfg.IMAGE_BASE_PATH p := by
  refine ⟨⟨tr0.path.map (fun x => modify_paths cfg.IMAGE_BASE_PATH x)⟩,
          ⟨va0.path.map (fun x => modify_paths cfg.IMAGE_BASE_PATH x)⟩,
          ⟨te0.path.map (fun x => modify_paths cfg.IMAGE_BASE_PATH x)⟩, ?_, ?_⟩
  · simp only [load_datasets]
    rw [htr, hva, hte]
    rfl
  · intro p hp
    simp only [List.mem_append, List.mem_map] at hp
    rcases hp with (⟨q, hq, rfl⟩ | ⟨q, hq, rfl⟩) | ⟨q, hq, rfl⟩
    · exact modify_paths_abs_of_abs_base _ _ hbase (hrel q (by simp [hq]))
    · exact modify_paths_abs_of_abs_base _ _ hbase (hrel q (by simp [hq]))
    · exact modify_paths_abs_of_abs_base _ _ hbase (hrel q (by simp [hq]))

/-- A filesystem and config with an ABSOLUTE `IMAGE_BASE_PATH` and relative
manifest row paths. -/
def absBaseFS : FS :=
  ⟨[("meta/train.csv", .csvData ⟨["a.jpg"]⟩),
    ("meta/valid.csv", .csvData ⟨["b.jpg"]⟩),
    ("meta/test.csv", .csvData ⟨["c.jpg"]⟩)], []⟩

def absBaseConfig : Config :=
  { relBaseConfig with IMAGE_BASE_PATH := "/data/images" }

/-- C1 witness: the amended theorem applied to a concrete filesystem with
the absolute base `"/data/images"`. -/
theorem load_datasets_paths_absolute_rooted_witness :
    ∃ tr va te, load_datasets absBaseFS absBaseConfig = .ok (tr, va, te) ∧
      ∀ p ∈ tr.path ++ va.path ++ te.path,
        isAbsolute p = true ∧ rootedAt absBaseConfig.IMAGE_BASE_PATH p :=
  load_datasets_paths_absolute_rooted absBaseFS absBaseConfig
    ⟨["a.jpg"]⟩ ⟨["b.jpg"]⟩ ⟨["c.jpg"]⟩
    rfl rfl rfl (by decide) (by decide)

/-- C2: for every batch `(batch_x, batch_y)` of the underlying generator
whose wide label array has at least `num_classes` columns,
`generator_wrapper` yields `(batch_x, L)` where `L` has exactly
`num_classes` single-column arrays and each of them has one entry per row
of `batch_y`. -/
theorem generator_wrapper_num_heads_rows (generator : List (Mat × Mat))
    (num_classes : Nat) (b : Mat × Mat) (hb : b ∈ generator)
    (hwide : ∀ row ∈ b.2, num_classes ≤ row.length) :
    ∃ L, (b.1, L) ∈ generator_wrapper generator num_classes ∧
      L = (List.range num_classes).map (fun i => numpy_column b.2 i) ∧
      L.length = num_classes ∧
      ∀ c ∈ L, c.length = b.2.length := by
  refine ⟨(List.range num_classes).map (fun i => numpy_column b.2 i), ?_, rfl, ?_, ?_⟩
  · exact List.mem_map.2 ⟨b, hb, rfl⟩
  · simp
  · intro c hc
    obtain ⟨i, hi, rfl⟩ := List.mem_map.1 hc
    simp [numpy_column]

/-- C2 witness: a two-class batch with two rows. -/
theorem generator_wrapper_num_heads_rows_witness :
    ∃ L, ([[5]], L) ∈ generator_wrapper [([[5]], [[0, 1], [1, 0]])] 2 ∧
      L = (List.range 2).map (fun i => numpy_column [[0, 1], [1, 0]] i) ∧
      L.length = 2 ∧
      ∀ c ∈ L, c.length = ([([[5]], [[0, 1], [1, 0]])].headI).2.length :=
  generator_wrapper_num_heads_rows [([[5]], [[0, 1], [1, 0]])] 2
    ([[5]], [[0, 1], [1, 0]]) (by simp) (by decide)

theorem foldl_push {α : Type} (v : α) :
    ∀ (n : Nat) (acc : List α),
      (List.range n).foldl (fun a _ => a ++ [v]) acc = acc ++ List.replicate n v := by
  intro n
  induction n with
  | zero => intro acc; simp
  | succ m ih =>
      intro acc
      rw [List.range_succ, List.foldl_append, ih acc, List.replicate_succ']
      simp

/-- C3: `get_model num_classes` has exactly `num_classes` output tensors,
each a single-unit sigmoid dense layer applied to the shared trunk
(`Dense(512, relu)` then `Dropout(0.3)` over the backbone output). -/
theorem get_model_heads (num_classes : Nat) :
    (get_model num_classes).outputs.length = num_classes ∧
    (∀ t ∈ (get_model num_classes).outputs, t = Tensor.dense 1 "sigmoid" modelTrunk) ∧
    (get_model num_classes).inputs = Tensor.backboneIn := by
  have h : (get_model num_classes).outputs =
      List.replicate num_classes (Tensor.dense 1 "sigmoid" modelTrunk) := by
    show (List.range num_classes).foldl
        (fun acc _ => acc ++ [Tensor.dense 1 "sigmoid" modelTrunk]) [] = _
    rw [foldl_push]
    simp
  refine ⟨by rw [h]; simp, ?_, rfl⟩
  intro t ht
  rw [h] at ht
  exact List.eq_of_mem_replicate ht

/-- C4: all three split generators read their label columns from the fixed
`labels` list, which consists of exactly the 14 named finding categories,
with no repetition (one column per category). -/
theorem get_image_generators_label_columns (train valid test : DataFrame)
    (cfg : Config) :
    (get_image_generators train valid test cfg).1.batches.y_col = labels ∧
    (get_image_generators train valid test cfg).2.1.batches.y_col = labels ∧
    (get_image_generators train valid test cfg).2.2.batches.y_col = labels ∧
    labels = ["Atelectasis", "Cardiomegaly", "Consolidation", "Edema",
      "Enlarged Cardiomediastinum", "Fracture", "Lung Lesion", "Lung Opacity",
      "No Finding", "Pleural Effusion", "Pleural Other", "Pneumonia",
      "Pneumothorax", "Support Devices"] ∧
    labels.length = 14 ∧ labels.Nodup := by
  exact ⟨rfl, rfl, rfl, by decide, by decide, by decide⟩

/-- C5: the training split generator is configured with random rotation,
zoom and horizontal flip plus rescaling; the validation and test splits
use a generator with rescaling only (all augmentation at framework
defaults), whose drawn transform parameters are the identity for every
random draw, and whose standardisation is the deterministic pixelwise
`1/255` rescale. -/
theorem get_image_generators_augmentation_split (train valid test : DataFrame)
    (cfg : Config) :
    (get_image_generators train valid test cfg).1.batches.gen =
      { rotation_range := 15, fill_mode := "constant", zoom_range := 1/10,
        horizontal_flip := true, rescale := some (1/255) } ∧
    (get_image_generators train valid test cfg).2.1.batches.gen =
      { rescale := some (1/255) } ∧
    (get_image_generators train valid test cfg).2.2.batches.gen =
      { rescale := some (1/255) } ∧
    (∀ r : Randomness,
      get_random_transform (get_image_generators train valid test cfg).2.1.batches.gen r =
        { theta := 0, zx := 1, flip := false }) ∧
    (∀ r : Randomness,
      get_random_transform (get_image_generators train valid test cfg).2.2.batches.gen r =
        { theta := 0, zx := 1, flip := false }) ∧
    (∀ img : Mat,
      standardize (get_image_generators train valid test cfg).2.2.batches.gen img =
        img.map (fun row => row.map (fun x => (1/255 : Rat) * x))) := by
  exact ⟨rfl, rfl, rfl, fun r => rfl, fun r => rfl, fun img => rfl⟩

/-- C9: the test split iterator is built with `shuffle=False` while the
train and validation iterators shuffle, and for every candidate shuffling
permutation the test iterator visits the manifest rows in their original
order. -/
theorem test_generator_unshuffled (train valid test : DataFrame) (cfg : Config) :
    (get_image_generators train valid test cfg).2.2.batches.shuffle = false ∧
    (get_image_generators train valid test cfg).1.batches.shuffle = true ∧
    (get_image_generators train valid test cfg).2.1.batches.shuffle = true ∧
    (get_image_generators train valid test cfg).2.2.batches.df = test ∧
    ∀ perm : List Nat,
      iterationOrder (get_image_generators train valid test cfg).2.2.batches perm =
        List.range test.path.length := by
  exact ⟨rfl, rfl, rfl, rfl, fun perm => rfl⟩

/-- C6: `steps_per_epoch` and `validation_steps` come from the module
globals `train` and `valid` — for any parameters whatsoever the computed
step counts are `ceil(len(global)/BATCH_SIZE)` — and when the global
`train` is unbound, `train_model` fails with `NameError` before training
starts. -/
theorem train_model_steps_from_globals :
    (∀ (α β γ : Type) (g : Globals) (model : α) (train_ds : β) (valid_ds : γ)
        (cfg : Config) (fs : FS) (tr va : DataFrame),
      g.train = some tr → g.valid = some va → cfg.BATCH_SIZE ≠ 0 →
      ∃ r fs2, train_model g model train_ds valid_ds cfg fs = .ok (r, fs2) ∧
        r.steps_per_epoch = mathCeilDiv tr.path.length cfg.BATCH_SIZE ∧
        r.validation_steps = mathCeilDiv va.path.length cfg.BATCH_SIZE) ∧
    (∀ (α β γ : Type) (g : Globals) (model : α) (train_ds : β) (valid_ds : γ)
        (cfg : Config) (fs : FS),
      g.train = none →
      train_model g model train_ds valid_ds cfg fs =
        .error (PyError.nameError "train")) := by
  constructor
  · intro α β γ g model train_ds valid_ds cfg fs tr va hg1 hg2 hbz
    refine ⟨{ steps_per_epoch := mathCeilDiv tr.path.length cfg.BATCH_SIZE,
              validation_steps := mathCeilDiv va.path.length cfg.BATCH_SIZE,
              epochs := cfg.MAX_EPOCHS,
              losses := List.replicate cfg.NUM_CLASSES "binary_crossentropy",
              weights_path := os_path_join cfg.WEIGHTS_DIR "model.hdf5" },
            (if cfg.WEIGHTS_DIR ∈ fs.dirs then fs
             else { fs with dirs := cfg.WEIGHTS_DIR :: fs.dirs }), ?_, rfl, rfl⟩
    simp only [train_model, hg1, hg2]
    rw [if_neg hbz]
  · intro α β γ g model train_ds valid_ds cfg fs hg1
    simp only [train_model, hg1]

def smallConfig : Config :=
  { relBaseConfig with BATCH_SIZE := 4 }

/-- C6 witness: both parts applied at concrete globals and parameters. -/
theorem train_model_steps_from_globals_witness :
    (∃ r fs2, train_model (⟨some ⟨["a", "b", "c", "d", "e"]⟩, some ⟨["f"]⟩⟩ : Globals)
        () () () smallConfig ⟨[], []⟩ = .ok (r, fs2) ∧
      r.steps_per_epoch = mathCeilDiv (⟨["a", "b", "c", "d", "e"]⟩ : DataFrame).path.length smallConfig.BATCH_SIZE ∧
      r.validation_steps = mathCeilDiv (⟨["f"]⟩ : DataFrame).path.length smallConfig.BATCH_SIZE) ∧
    train_model (⟨none, some ⟨["f"]⟩⟩ : Globals) () () () smallConfig ⟨[], []⟩ =
      .error (PyError.nameError "train") :=
  ⟨train_model_steps_from_globals.1 Unit Unit Unit
      ⟨some ⟨["a", "b", "c", "d", "e"]⟩, some ⟨["f"]⟩⟩ () () () smallConfig ⟨[], []⟩
      ⟨["a", "b", "c", "d", "e"]⟩ ⟨["f"]⟩ rfl rfl (by decide),
   train_model_steps_from_globals.2 Unit Unit Unit
      ⟨none, some ⟨["f"]⟩⟩ () () () smallConfig ⟨[], []⟩ rfl⟩

/-- C7: whenever `train_model` reaches training, the configured weights
directory exists in the filesystem state at `fit` time (it is created
when absent), and the checkpoint path is `WEIGHTS_DIR/model.hdf5`. -/
theorem train_model_creates_weights_dir (α β γ : Type) (g : Globals)
    (model : α) (train_ds : β) (valid_ds : γ) (cfg : Config) (fs : FS)
    (r : TrainRun) (fs2 : FS)
    (h : train_model g model train_ds valid_ds cfg fs = .ok (r, fs2)) :
    cfg.WEIGHTS_DIR ∈ fs2.dirs ∧
    r.weights_path = os_path_join cfg.WEIGHTS_DIR "model.hdf5" := by
  cases hg1 : g.train with
  | none => simp [train_model, hg1] at h
  | some tr =>
    by_cases hbz : cfg.BATCH_SIZE = 0
    · simp [train_model, hg1, hbz] at h
    · cases hg2 : g.valid with
      | none => simp [train_model, hg1, hg2, hbz] at h
      | some va =>
        simp only [train_model, hg1, hg2] at h
        rw [if_neg hbz] at h
        simp only [Except.ok.injEq, Prod.mk.injEq] at h
        obtain ⟨hr, hfs⟩ := h
        subst hr
        subst hfs
        constructor
        · by_cases hmem : cfg.WEIGHTS_DIR ∈ fs.dirs
          · simp [hmem]
          · simp [hmem]
        · rfl

/-- C7 witness: a run starting from a filesystem without the weights
directory. -/
theorem train_model_creates_weights_dir_witness :
    smallConfig.WEIGHTS_DIR ∈ (⟨[], ["weights"]⟩ : FS).dirs ∧
    ({ steps_per_epoch := 2, validation_steps := 1, epochs := 10,
       losses := List.replicate 14 "binary_crossentropy",
       weights_path := "weights/model.hdf5" } : TrainRun).weights_path =
      os_path_join smallConfig.WEIGHTS_DIR "model.hdf5" :=
  train_model_creates_weights_dir Unit Unit Unit
    ⟨some ⟨["a", "b", "c", "d", "e"]⟩, some ⟨["f"]⟩⟩ () () ()
    smallConfig ⟨[], []⟩
    { steps_per_epoch := 2, validation_steps := 1, epochs := 10,
      losses := List.replicate 14 "binary_crossentropy",
      weights_path := "weights/model.hdf5" }
    ⟨[], ["weights"]⟩ rfl

/-- C8: `load_config` and `load_datasets` perform no error recovery: a
failed or malformed read propagates its error unchanged to the caller
(the rest of the pipeline is never reached and no fallback value is
produced). -/
theorem load_config_load_datasets_propagate_errors :
    (∀ (fs : FS) (p : String) (e : PyError),
      json_load fs p = .error e → load_config fs p = .error e) ∧
    (∀ (fs : FS) (p : String), fsLookup fs.files p = none →
      load_config fs p = .error (.fileNotFound p)) ∧
    (∀ (fs : FS) (p : String), fsLookup fs.files p = some .malformed →
      load_config fs p = .error (.jsonDecodeError p)) ∧
    (∀ (fs : FS) (cfg : Config) (e : PyError),
      read_csv fs (os_path_join cfg.META_BASE_PATH "train.csv") = .error e →
      load_datasets fs cfg = .error e) ∧
    (∀ (fs : FS) (cfg : Config) (tr : DataFrame) (e : PyError),
      read_csv fs (os_path_join cfg.META_BASE_PATH "train.csv") = .ok tr →
      read_csv fs (os_path_join cfg.META_BASE_PATH "valid.csv") = .error e →
      load_datasets fs cfg = .error e) ∧
    (∀ (fs : FS) (cfg : Config) (tr va : DataFrame) (e : PyError),
      read_csv fs (os_path_join cfg.META_BASE_PATH "train.csv") = .ok tr →
      read_csv fs (os_path_join cfg.META_BASE_PATH "valid.csv") = .ok va →
      read_csv fs (os_path_join cfg.META_BASE_PATH "test.csv") = .error e →
      load_datasets fs cfg = .error e) := by
  refine ⟨?_, ?_, ?_, ?_, ?_, ?_⟩
  · intro fs p e h
    simpa [load_config] using h
  · intro fs p h
    simp [load_config, json_load, h]
  · intro fs p h
    simp [load_config, json_load, h]
  · intro fs cfg e h
    simp only [load_datasets]
    rw [h]
    rfl
  · intro fs cfg tr e htr h
    simp only [load_datasets]
    rw [htr, h]
    rfl
  · intro fs cfg tr va e htr hva h
    simp only [load_datasets]
    rw [htr, hva, h]
    rfl

def emptyFS : FS := ⟨[], []⟩

def malformedFS : FS :=
  ⟨[("config.json", .malformed), ("meta/train.csv", .csvData ⟨[]⟩),
    ("meta/valid.csv", .malformed)], []⟩

def testMalformedFS : FS :=
  ⟨[("meta/train.csv", .csvData ⟨[]⟩), ("meta/valid.csv", .csvData ⟨[]⟩),
    ("meta/test.csv", .malformed)], []⟩

/-- C8 witness: missing and malformed files at each stage, with the
underlying error surfacing unchanged. -/
theorem load_config_load_datasets_propagate_errors_witness :
    load_config emptyFS "config.json" = .error (.fileNotFound "config.json") ∧
    load_config malformedFS "config.json" = .error (.jsonDecodeError "config.json") ∧
    load_datasets emptyFS relBaseConfig = .error (.fileNotFound "meta/train.csv") ∧
    load_datasets malformedFS relBaseConfig = .error (.csvParserError "meta/valid.csv") ∧
    load_datasets testMalformedFS relBaseConfig = .error (.csvParserError "meta/test.csv") :=
  ⟨load_config_load_datasets_propagate_errors.1 emptyFS "config.json" _ rfl,
   load_config_load_datasets_propagate_errors.2.2.1 malformedFS "config.json" rfl,
   load_config_load_datasets_propagate_errors.2.2.2.1 emptyFS relBaseConfig _ rfl,
   load_config_load_datasets_propagate_errors.2.2.2.2.1 malformedFS relBaseConfig
     ⟨[]⟩ _ rfl rfl,
   load_config_load_datasets_propagate_errors.2.2.2.2.2 testMalformedFS relBaseConfig
     ⟨[]⟩ ⟨[]⟩ _ rfl rfl rfl⟩
